import Mathlib

/-!
Verification development for the `printer-service` repository.

The repository contains two observed variants of the `/print/receipt` route
(`src/index.js` and `src/unnamed/part_000`), plus `/print/deposit` and
`/print/barcode` routes in `src/unnamed/part_000`.  We shallowly embed the
rendering logic of both variants: every definition below is a direct
transcription of the JavaScript source.  Functions named with suffix `1`
embed `src/index.js`; suffix `2` embeds `src/unnamed/part_000`.

Modelling conventions:
  * request fields that may be absent are `Option`;
  * JavaScript truthiness of an optional string field is `truthy`
    (absent or empty string is falsy);
  * string interpolation of a possibly-absent value is `jsStr`
    (JavaScript renders `undefined`);
  * a `forEach` body wrapped in `try/catch` where the only throwing
    expression is a method call on a missing `item.name` is modelled by
    returning no commands for items whose `name` is `none`;
  * the thermal-printer methods are modelled as an inductive command
    type `Cmd`; `printer.drawLine('-')` and `printer.drawLine()` are the
    same command (the printer is configured with `lineCharacter: '-'`);
  * a QR / execute failure injected by the driver is modelled by a
    boolean flag (`qrOk`, `execOk`): when the flag is `false` the
    corresponding library call throws and the commands already emitted
    before the throwing call remain, exactly as in the JS `try` blocks.
-/

/-- Abstract printer command, one constructor per `node-thermal-printer`
method used by the routes. -/
inductive Cmd where
  | alignLeft | alignCenter | alignRight
  | bold (b : Bool)
  | textSize (w h : Nat)
  | textNormal
  | println (s : String)
  | leftRight (l r : String)
  | drawLine
  | newLine
  | cut
  | printBarcode (data : String) (sym : Nat)
  | printQR (data : String)
  deriving DecidableEq

/-- A line item of the request body (`items[]`).  `name` is optional so
that a malformed item lacking a name is representable. -/
structure Item where
  name : Option String
  price : String
  description : Option String
  deriving DecidableEq

/-- The `/print/receipt` request body fields used by the routes. -/
structure Order where
  title : Option String
  orderNumber : Option String
  date : Option String
  items : Option (List Item)
  total : Option String
  footerText : Option String
  deriving DecidableEq

/-- Operation performed on the shared printer object: buffer reset
(`printer.clear()`), appending a command to the buffer, or
`printer.execute()`. -/
inductive POp where
  | clear
  | append (c : Cmd)
  | execute
  deriving DecidableEq

/-- HTTP-level outcome of a handler: success, a 4xx client rejection, or
a 5xx server failure. -/
inductive HResp where
  | ok
  | clientError (msg : String)
  | serverError
  deriving DecidableEq

/-- True exactly on the 4xx client-rejection outcome. -/
def isClientError : HResp → Bool
  | .clientError _ => true
  | _ => false

/-- JavaScript truthiness of an optional string field: `undefined` and
the empty string are falsy. -/
def truthy : Option String → Bool
  | none => false
  | some s => !(s == "")

/-- JavaScript string coercion of a possibly-undefined value, as it
happens inside template literals and `leftRight` arguments. -/
def jsStr : Option String → String
  | none => "undefined"
  | some s => s

/-- JavaScript `x || dflt` on an optional string field. -/
def jsOr (x : Option String) (dflt : String) : String :=
  if truthy x then x.getD "" else dflt

/-- Generic test that `pat` occurs at the start of `l`. -/
def listStarts {α : Type} [DecidableEq α] : List α → List α → Bool
  | _, [] => true
  | [], _ :: _ => false
  | c :: cs, p :: ps => c == p && listStarts cs ps

/-- Generic contiguous-sublist test, JavaScript `String.includes` style. -/
def listSub {α : Type} [DecidableEq α] : List α → List α → Bool
  | [], pat => pat.isEmpty
  | c :: tl, pat => listStarts (c :: tl) pat || listSub tl pat

/-- JavaScript `s.includes(pat)`. -/
def strHasSub (s pat : String) : Bool :=
  listSub s.data pat.data

/-- JavaScript `toLowerCase`, restricted to ASCII letters and the German
umlauts — the only characters whose lowercasing can affect the label
comparisons performed by the routes. -/
def jsLowerChar (c : Char) : Char :=
  if 65 ≤ c.toNat && c.toNat ≤ 90 then Char.ofNat (c.toNat + 32)
  else if c == 'Ä' then 'ä'
  else if c == 'Ö' then 'ö'
  else if c == 'Ü' then 'ü'
  else c

/-- JavaScript `s.toLowerCase()` under the restriction of `jsLowerChar`. -/
def jsToLower (s : String) : String :=
  String.mk (s.data.map jsLowerChar)

/-- JavaScript `s.replace(/\D/g, '')` — removes every non-digit
character (used by the `/print/barcode` route, part_000 line 443). -/
def stripNonDigits (s : String) : String :=
  String.mk (s.data.filter fun c => c.isDigit)

/-- Auxiliary scan for `stripLitBD`: removes every occurrence of the
two-character sequence backslash-`D`, left to right. -/
def stripBDAux : List Char → List Char
  | '\\' :: 'D' :: rest => stripBDAux rest
  | c :: rest => c :: stripBDAux rest
  | [] => []

/-- JavaScript `s.replace(/\\D/g, '')` as written in the deposit route
(part_000 line 341): the doubled backslash makes the regex match the
literal two-character text backslash-`D`, not "non-digit". -/
def stripLitBD (s : String) : String :=
  String.mk (stripBDAux s.data)

/-- JavaScript `s.padStart(12, '0')`. -/
def padStart12 (s : String) : String :=
  String.mk (List.replicate (12 - s.length) '0') ++ s

example : stripNonDigits "AB-12" = "12" := by decide
example : stripLitBD "AB-12" = "AB-12" := by decide
example : stripLitBD "\\D42" = "42" := by decide
example : padStart12 "42" = "000000000042" := by decide
example : jsToLower "RÜCKGELD" = "rückgeld" := by decide
example : strHasSub "Sommer-Rabatt 10%" "Rabatt" = true := by decide
example : strHasSub "Brot" "Rabatt" = false := by decide

/-! ## Line classification (skip predicates and pass predicates) -/

/-- Skip predicate of `src/index.js` lines 179–184: an item name is
special when it contains `Rabatt` or `Gutschrift`, or equals
(case-sensitively) `Zahlungsart` or `Rückgeld`. -/
def isSpecialName1 (n : String) : Bool :=
  strHasSub n "Rabatt" || strHasSub n "Gutschrift" ||
    n == "Zahlungsart" || n == "Rückgeld"

/-- Discount-pass predicate of `src/index.js` line 211. -/
def discPred1 (n : String) : Bool :=
  strHasSub n "Rabatt" || strHasSub n "Gutschrift"

/-- Payment-pass predicate of `src/index.js` line 224. -/
def payPred1 (n : String) : Bool :=
  n == "Zahlungsart"

/-- Change-pass predicate of `src/index.js` line 236. -/
def chgPred1 (n : String) : Bool :=
  n == "Rückgeld"

/-- Skip predicate of `src/unnamed/part_000` lines 95–100: contains
`Rabatt` or `Gutschrift`, or lowercases to `zahlungsart`, `rückgeld`
or `gegeben`. -/
def isSpecialName2 (n : String) : Bool :=
  strHasSub n "Rabatt" || strHasSub n "Gutschrift" ||
    jsToLower n == "zahlungsart" || jsToLower n == "rückgeld" ||
    jsToLower n == "gegeben"

/-- Special-pass predicate of `src/unnamed/part_000` lines 125–130
(clause order as written there: zahlungsart, gegeben, rückgeld). -/
def passPred2 (n : String) : Bool :=
  strHasSub n "Rabatt" || strHasSub n "Gutschrift" ||
    jsToLower n == "zahlungsart" || jsToLower n == "gegeben" ||
    jsToLower n == "rückgeld"

/-- Payment-detail formatting predicate of `src/unnamed/part_000`
lines 134–138. -/
def payish2 (n : String) : Bool :=
  jsToLower n == "zahlungsart" || jsToLower n == "gegeben" ||
    jsToLower n == "rückgeld"

/-- Item-level form of `isSpecialName1`; an item without a name throws
before the predicate finishes, so it is classified by neither loop. -/
def isSpecialItem1 (it : Item) : Bool :=
  match it.name with
  | none => false
  | some n => isSpecialName1 n

/-- Item-level form of `isSpecialName2`. -/
def isSpecialItem2 (it : Item) : Bool :=
  match it.name with
  | none => false
  | some n => isSpecialName2 n

/-- Item-level discount-pass predicate of `src/index.js`. -/
def isDiscItem1 (it : Item) : Bool :=
  match it.name with
  | none => false
  | some n => discPred1 n

/-- Item-level payment-pass predicate of `src/index.js`. -/
def isPayItem1 (it : Item) : Bool :=
  match it.name with
  | none => false
  | some n => payPred1 n

/-- Item-level change-pass predicate of `src/index.js`. -/
def isChgItem1 (it : Item) : Bool :=
  match it.name with
  | none => false
  | some n => chgPred1 n

/-! ## Per-item command emission -/

/-- Commands produced for one regular item: `leftRight(name, price)`
plus the optional indented description block (both variants emit the
same commands here — index.js lines 189–194, part_000 lines 107–112). -/
def itemLines (n p : String) (d : Option String) : List Cmd :=
  [Cmd.leftRight n p] ++
    (if truthy d then
      [Cmd.textSize 0 0, Cmd.println ("  " ++ d.getD ""), Cmd.textNormal]
    else [])

/-- Body of one iteration of the regular-items `forEach` of
`src/index.js` lines 176–199, acting on the accumulator
(`hasDiscountItems`, emitted commands). -/
def step1 (acc : Bool × List Cmd) (it : Item) : Bool × List Cmd :=
  match it.name with
  | none => acc
  | some n =>
    if isSpecialName1 n then (true, acc.2)
    else (acc.1, acc.2 ++ itemLines n it.price it.description)

/-- The regular-items loop of `src/index.js`: returns the final
`hasDiscountItems` flag and the emitted commands. -/
def regularLoop1 (l : List Item) : Bool × List Cmd :=
  l.foldl step1 (false, [])

/-- Body of one iteration of the regular-items `forEach` of
`src/unnamed/part_000` lines 93–117. -/
def step2 (acc : Bool × List Cmd) (it : Item) : Bool × List Cmd :=
  match it.name with
  | none => acc
  | some n =>
    if isSpecialName2 n then (true, acc.2)
    else (acc.1, acc.2 ++ itemLines n it.price it.description)

/-- The regular-items loop of `src/unnamed/part_000`. -/
def regularLoop2 (l : List Item) : Bool × List Cmd :=
  l.foldl step2 (false, [])

/-- Commands of the per-item function `regItem1`, the effect of one
regular-loop iteration of `src/index.js` in isolation. -/
def regItem1 (it : Item) : List Cmd :=
  match it.name with
  | none => []
  | some n => if isSpecialName1 n then [] else itemLines n it.price it.description

/-- Single-iteration effect of the part_000 regular loop. -/
def regItem2 (it : Item) : List Cmd :=
  match it.name with
  | none => []
  | some n => if isSpecialName2 n then [] else itemLines n it.price it.description

/-- Commands emitted for one item by the discount pass of
`src/index.js` lines 209–218. -/
def discEmit1 (it : Item) : List Cmd :=
  match it.name with
  | none => []
  | some n => if discPred1 n then [Cmd.leftRight n it.price] else []

/-- Commands emitted for one item by the payment pass of
`src/index.js` lines 222–231. -/
def payEmit1 (it : Item) : List Cmd :=
  match it.name with
  | none => []
  | some n => if payPred1 n then [Cmd.leftRight n it.price] else []

/-- Commands emitted for one item by the change pass of
`src/index.js` lines 234–243. -/
def chgEmit1 (it : Item) : List Cmd :=
  match it.name with
  | none => []
  | some n => if chgPred1 n then [Cmd.leftRight n it.price] else []

/-- Commands emitted for one item by the single special pass of
`src/unnamed/part_000` lines 123–151: payment-detail labels get a
small-size `name + ":"` line, discounts and credits a plain line. -/
def specEmit2 (it : Item) : List Cmd :=
  match it.name with
  | none => []
  | some n =>
    if passPred2 n then
      if payish2 n then
        [Cmd.textSize 0 0, Cmd.leftRight (n ++ ":") it.price, Cmd.textNormal]
      else
        [Cmd.leftRight n it.price]
    else []

/-- A `forEach` loop that appends the commands of `f` for each item in
order. -/
def forEachEmit (l : List Item) (f : Item → List Cmd) : List Cmd :=
  l.foldl (fun acc it => acc ++ f it) []

/-! ## Receipt rendering, variant 1 (`src/index.js` lines 131–333) -/

/-- Header and meta block of `src/index.js` lines 152–168, up to (not
including) the meta `drawLine` of line 169. -/
def headCore1 (o : Order) : List Cmd :=
  [Cmd.alignCenter, Cmd.textSize 1 1, Cmd.bold true,
   Cmd.println (jsOr o.title "KAUFBELEG"), Cmd.bold false, Cmd.textNormal,
   Cmd.newLine, Cmd.alignLeft] ++
  (if truthy o.orderNumber then
    [Cmd.println ("Beleg-Nr.: " ++ o.orderNumber.getD "")] else []) ++
  (if truthy o.date then
    [Cmd.println ("Datum: " ++ o.date.getD "")] else [])

/-- Items block of `src/index.js` lines 172–245: the regular loop, then —
when the `hasDiscountItems` flag was set — the subtotal line and the
three special passes with a `drawLine` between the discount and payment
passes. -/
def itemsBlock1 (l : List Item) (total : Option String) : List Cmd :=
  (regularLoop1 l).2 ++
    (if (regularLoop1 l).1 then
      [Cmd.drawLine, Cmd.bold true, Cmd.leftRight "ZWISCHENSUMME:" (jsStr total),
       Cmd.bold false] ++
      forEachEmit l discEmit1 ++ [Cmd.drawLine] ++
      forEachEmit l payEmit1 ++ forEachEmit l chgEmit1
    else [])

/-- Total block of `src/index.js` lines 250–256. -/
def totBlock1 (o : Order) : List Cmd :=
  if truthy o.total then
    [Cmd.bold true, Cmd.textSize 0 1, Cmd.leftRight "GESAMTBETRAG:" (o.total.getD ""),
     Cmd.textNormal, Cmd.bold false]
  else []

/-- Footer block of `src/index.js` lines 270–276. -/
def footBlock1 (o : Order) : List Cmd :=
  if truthy o.footerText then
    [Cmd.newLine, Cmd.alignCenter, Cmd.bold true,
     Cmd.println (o.footerText.getD ""), Cmd.bold false]
  else []

/-- QR block of `src/index.js` lines 279–294; on a QR failure the
commands before the throwing `printQR` call remain and the error is
swallowed. -/
def qrBlock1 (o : Order) (qrOk : Bool) : List Cmd :=
  if qrOk then
    [Cmd.newLine, Cmd.alignCenter,
     Cmd.printQR ("RECEIPT:" ++ jsStr o.orderNumber), Cmd.newLine,
     Cmd.println "Scannen Sie für die digitale Quittung", Cmd.newLine]
  else [Cmd.newLine, Cmd.alignCenter]

/-- Everything after the unconditional `drawLine` of `src/index.js`
line 247: total, tax note, company identity, footer, QR, cut. -/
def tail1 (o : Order) (qrOk : Bool) : List Cmd :=
  totBlock1 o ++
  [Cmd.newLine, Cmd.alignCenter, Cmd.println "Enthaltene MwSt. 19%",
   Cmd.newLine, Cmd.println "BankLy LLC German Branch",
   Cmd.println "Mainzer Landstraße 55", Cmd.println "60325 Frankfurt, Germany"] ++
  footBlock1 o ++ qrBlock1 o qrOk ++ [Cmd.cut]

/-- Command sequence built by the `/print/receipt` route of
`src/index.js` (lines 150–296). -/
def renderReceipt1 (o : Order) (qrOk : Bool) : List Cmd :=
  headCore1 o ++ [Cmd.drawLine] ++
  (match o.items with
   | none => []
   | some l => itemsBlock1 l o.total) ++
  [Cmd.drawLine] ++ tail1 o qrOk

/-! ## Receipt rendering, variant 2 (`src/unnamed/part_000` lines 61–252) -/

/-- Header and meta block of part_000 lines 67–85, up to (not including)
the meta `drawLine` of line 86. -/
def headCore2 (o : Order) : List Cmd :=
  [Cmd.alignCenter, Cmd.textSize 1 1, Cmd.bold true,
   Cmd.println (jsOr o.title "KAUFBELEG"), Cmd.bold false, Cmd.textNormal,
   Cmd.newLine, Cmd.alignLeft, Cmd.textSize 0 0] ++
  (if truthy o.orderNumber then
    [Cmd.println ("Beleg-Nr.: " ++ o.orderNumber.getD "")] else []) ++
  (if truthy o.date then
    [Cmd.println ("Datum: " ++ o.date.getD "")] else []) ++
  [Cmd.textNormal]

/-- Items block of part_000 lines 89–157: regular loop, then either the
single special pass framed by two `drawLine`s, or a lone `drawLine`. -/
def itemsBlock2 (l : List Item) : List Cmd :=
  (regularLoop2 l).2 ++
    (if (regularLoop2 l).1 then
      Cmd.drawLine :: (forEachEmit l specEmit2 ++ [Cmd.drawLine])
    else [Cmd.drawLine])

/-- Total block of part_000 lines 160–166. -/
def totBlock2 (o : Order) : List Cmd :=
  if truthy o.total then
    [Cmd.bold true, Cmd.textSize 1 1, Cmd.leftRight "GESAMT:" (o.total.getD ""),
     Cmd.textNormal, Cmd.bold false]
  else []

/-- QR block of part_000 lines 184–197; `alignCenter` is executed before
the guarded `printQR`, so it survives a QR failure. -/
def qrBlock2 (o : Order) (qrOk : Bool) : List Cmd :=
  Cmd.alignCenter ::
    (if truthy o.orderNumber then
      (if qrOk then
        [Cmd.printQR ("RECEIPT:" ++ o.orderNumber.getD ""), Cmd.newLine]
      else [])
    else [])

/-- Footer block of part_000 lines 200–204. -/
def footBlock2 (o : Order) : List Cmd :=
  if truthy o.footerText then
    [Cmd.alignCenter, Cmd.println (o.footerText.getD ""), Cmd.newLine]
  else []

/-- Everything after the items block of part_000: total, VAT note,
company identity, QR, footer, cut (lines 160–206). -/
def tail2 (o : Order) (qrOk : Bool) : List Cmd :=
  totBlock2 o ++
  [Cmd.newLine, Cmd.alignCenter, Cmd.textSize 0 0,
   Cmd.println "Enthaltene MwSt. 19%", Cmd.textNormal, Cmd.newLine,
   Cmd.println "BankLy LLC German Branch", Cmd.println "Mainzer Landstraße 55",
   Cmd.println "60325 Frankfurt, Germany", Cmd.newLine] ++
  qrBlock2 o qrOk ++ footBlock2 o ++ [Cmd.cut]

/-- Command sequence built by the `/print/receipt` route of
`src/unnamed/part_000` (lines 65–206). -/
def renderReceipt2 (o : Order) (qrOk : Bool) : List Cmd :=
  headCore2 o ++ [Cmd.drawLine] ++
  (match o.items with
   | none => []
   | some l => itemsBlock2 l) ++
  tail2 o qrOk

/-! ## Barcode normalization and the barcode-bearing routes -/

/-- Barcode-value preparation of the deposit route, part_000
lines 341–359: clean with the (mis-escaped) regex, take the first 12 of
exactly 13, left-pad shorter values with `'0'`, keep the last 12 of
longer values. -/
def depositBarcodeValue (s : String) : String :=
  let b := stripLitBD s
  if b.length == 13 then b.take 12
  else if b.length < 12 then padStart12 b
  else if b.length > 12 then b.drop (b.length - 12)
  else b

/-- Barcode block of the deposit route, part_000 lines 336–369: only
entered for a truthy `orderNumber`; emits the EAN-13 command (type 67)
followed by a `newLine`. -/
def depositBarcodeBlock (orderNumber : Option String) : List Cmd :=
  if truthy orderNumber then
    [Cmd.alignCenter,
     Cmd.printBarcode (depositBarcodeValue (orderNumber.getD "")) 67,
     Cmd.newLine]
  else []

/-- Printing phase of the `/print/barcode` route once validation has
passed (part_000 lines 459–505): clear, append the commands, execute;
on an execute failure the buffer is cleared before the 500 response. -/
def barcodeRun (v : String) (execOk : Bool) : HResp × List POp :=
  let pre := [POp.clear, POp.append Cmd.alignCenter,
              POp.append (Cmd.printBarcode v 67), POp.append Cmd.newLine,
              POp.append Cmd.cut]
  if execOk then (HResp.ok, pre ++ [POp.execute])
  else (HResp.serverError, pre ++ [POp.execute, POp.clear])

/-- The `/print/barcode` handler of part_000 lines 431–519, as a
function from the request `id` (absent or non-string request values are
`none`) and the executor outcome to the response and the ordered trace
of printer operations. -/
def barcodeHandler (id : Option String) (execOk : Bool) : HResp × List POp :=
  match id with
  | none => (HResp.clientError "Invalid or missing id in request body.", [])
  | some s =>
    if s == "" then
      (HResp.clientError "Invalid or missing id in request body.", [])
    else
      let v := stripNonDigits s
      if v.length == 13 then barcodeRun (v.take 12) execOk
      else if v.length != 12 then
        (HResp.clientError "not a valid 12 or 13-digit EAN format", [])
      else barcodeRun v execOk

/-! ## Receipt handlers: printer-operation traces around `execute` -/

/-- The `/print/receipt` handler of `src/index.js` lines 150–309 as a
printer-operation trace: initial `clear`, the appended commands, then
`execute`; on success a `clear` follows (line 301), on an execute
failure the 500 response is sent without any `clear` (lines 303–309). -/
def receiptHandler1 (o : Order) (qrOk execOk : Bool) : HResp × List POp :=
  let pre := POp.clear :: (renderReceipt1 o qrOk).map POp.append
  if execOk then (HResp.ok, pre ++ [POp.execute, POp.clear])
  else (HResp.serverError, pre ++ [POp.execute])

/-- The `/print/receipt` handler of part_000 lines 65–224 as a trace:
initial `clear`, appended commands, `execute`; on success the response
is sent with no further `clear` (lines 210–211), on an execute failure
the buffer is cleared before the 500 response (lines 212–224). -/
def receiptHandler2 (o : Order) (qrOk execOk : Bool) : HResp × List POp :=
  let pre := POp.clear :: (renderReceipt2 o qrOk).map POp.append
  if execOk then (HResp.ok, pre ++ [POp.execute])
  else (HResp.serverError, pre ++ [POp.execute, POp.clear])

/-- Printer operations that follow the first `execute` of a trace. -/
def postExec : List POp → List POp
  | [] => []
  | POp.execute :: rest => rest
  | _ :: rest => postExec rest

/-! ## Loop decomposition lemmas -/

theorem foldl_emit_eq (f : Item → List Cmd) (l : List Item) (init : List Cmd) :
    l.foldl (fun acc it => acc ++ f it) init = init ++ forEachEmit l f := by
  induction l generalizing init with
  | nil => simp [forEachEmit]
  | cons a tl ih =>
    simp only [List.foldl_cons, forEachEmit]
    rw [ih (init ++ f a), ih ([] ++ f a)]
    simp [List.append_assoc]

theorem forEachEmit_nil (f : Item → List Cmd) : forEachEmit [] f = [] := rfl

theorem forEachEmit_cons (f : Item → List Cmd) (a : Item) (tl : List Item) :
    forEachEmit (a :: tl) f = f a ++ forEachEmit tl f := by
  simp only [forEachEmit, List.foldl_cons, List.nil_append]
  exact foldl_emit_eq f tl (f a)

theorem forEachEmit_forall {P : Cmd → Prop} (f : Item → List Cmd) (l : List Item)
    (h : ∀ it ∈ l, ∀ c ∈ f it, P c) : ∀ c ∈ forEachEmit l f, P c := by
  induction l with
  | nil => intro c hc; simp [forEachEmit_nil] at hc
  | cons a tl ih =>
    intro c hc
    rw [forEachEmit_cons] at hc
    rcases List.mem_append.mp hc with hc | hc
    · exact h a (by simp) c hc
    · exact ih (fun it hit => h it (by simp [hit])) c hc

theorem regLoop1_aux (l : List Item) (b : Bool) (acc : List Cmd) :
    l.foldl step1 (b, acc) = (b || l.any isSpecialItem1, acc ++ forEachEmit l regItem1) := by
  induction l generalizing b acc with
  | nil => simp [forEachEmit_nil]
  | cons a tl ih =>
    simp only [List.foldl_cons, List.any_cons, forEachEmit_cons]
    cases hn : a.name with
    | none =>
      have hs : isSpecialItem1 a = false := by simp [isSpecialItem1, hn]
      have hr : regItem1 a = [] := by simp [regItem1, hn]
      simp [step1, hn, ih, hs, hr]
    | some n =>
      cases hsp : isSpecialName1 n with
      | true =>
        have hs : isSpecialItem1 a = true := by simp [isSpecialItem1, hn, hsp]
        have hr : regItem1 a = [] := by simp [regItem1, hn, hsp]
        simp [step1, hn, hsp, ih, hs, hr]
      | false =>
        have hs : isSpecialItem1 a = false := by simp [isSpecialItem1, hn, hsp]
        have hr : regItem1 a = itemLines n a.price a.description := by
          simp [regItem1, hn, hsp]
        simp [step1, hn, hsp, ih, hs, hr, List.append_assoc]

theorem regLoop1_eq (l : List Item) :
    regularLoop1 l = (l.any isSpecialItem1, forEachEmit l regItem1) := by
  simpa using regLoop1_aux l false []

theorem regLoop2_aux (l : List Item) (b : Bool) (acc : List Cmd) :
    l.foldl step2 (b, acc) = (b || l.any isSpecialItem2, acc ++ forEachEmit l regItem2) := by
  induction l generalizing b acc with
  | nil => simp [forEachEmit_nil]
  | cons a tl ih =>
    simp only [List.foldl_cons, List.any_cons, forEachEmit_cons]
    cases hn : a.name with
    | none =>
      have hs : isSpecialItem2 a = false := by simp [isSpecialItem2, hn]
      have hr : regItem2 a = [] := by simp [regItem2, hn]
      simp [step2, hn, ih, hs, hr]
    | some n =>
      cases hsp : isSpecialName2 n with
      | true =>
        have hs : isSpecialItem2 a = true := by simp [isSpecialItem2, hn, hsp]
        have hr : regItem2 a = [] := by simp [regItem2, hn, hsp]
        simp [step2, hn, hsp, ih, hs, hr]
      | false =>
        have hs : isSpecialItem2 a = false := by simp [isSpecialItem2, hn, hsp]
        have hr : regItem2 a = itemLines n a.price a.description := by
          simp [regItem2, hn, hsp]
        simp [step2, hn, hsp, ih, hs, hr, List.append_assoc]

theorem regLoop2_eq (l : List Item) :
    regularLoop2 l = (l.any isSpecialItem2, forEachEmit l regItem2) := by
  simpa using regLoop2_aux l false []

/-! ## Pass characterization: each special pass filters the full list -/

/-- Item-level lift of a name predicate (items without a name throw and
match nothing). -/
def liftPred (p : String → Bool) (it : Item) : Bool :=
  match it.name with
  | none => false
  | some n => p n

/-- Generic single-line pass body: emit `leftRight(name, price)` for
items whose name satisfies `p`. -/
def lineEmit (p : String → Bool) (it : Item) : List Cmd :=
  match it.name with
  | none => []
  | some n => if p n then [Cmd.leftRight n it.price] else []

theorem forEachEmit_lineEmit (p : String → Bool) (l : List Item) :
    forEachEmit l (lineEmit p) =
      (l.filter (liftPred p)).map (fun it => Cmd.leftRight (jsStr it.name) it.price) := by
  induction l with
  | nil => rfl
  | cons a tl ih =>
    rw [forEachEmit_cons]
    cases hn : a.name with
    | none =>
      have h1 : lineEmit p a = [] := by simp [lineEmit, hn]
      have h2 : liftPred p a = false := by simp [liftPred, hn]
      simp [h1, h2, List.filter_cons, ih]
    | some n =>
      cases hp : p n with
      | true =>
        have h1 : lineEmit p a = [Cmd.leftRight n a.price] := by simp [lineEmit, hn, hp]
        have h2 : liftPred p a = true := by simp [liftPred, hn, hp]
        have h3 : jsStr a.name = n := by rw [hn]; rfl
        simp [h1, h2, List.filter_cons, ih, h3]
      | false =>
        have h1 : lineEmit p a = [] := by simp [lineEmit, hn, hp]
        have h2 : liftPred p a = false := by simp [liftPred, hn, hp]
        simp [h1, h2, List.filter_cons, ih]

theorem discEmit1_eq_lineEmit : discEmit1 = lineEmit discPred1 := rfl
theorem payEmit1_eq_lineEmit : payEmit1 = lineEmit payPred1 := rfl
theorem chgEmit1_eq_lineEmit : chgEmit1 = lineEmit chgPred1 := rfl
theorem isDiscItem1_eq_lift : isDiscItem1 = liftPred discPred1 := rfl
theorem isPayItem1_eq_lift : isPayItem1 = liftPred payPred1 := rfl
theorem isChgItem1_eq_lift : isChgItem1 = liftPred chgPred1 := rfl

/-! ## Command-shape predicates and the subtotal pattern -/

/-- True exactly on `drawLine`. -/
def isDL : Cmd → Bool
  | Cmd.drawLine => true
  | _ => false

/-- True exactly on `bold true`. -/
def isBT : Cmd → Bool
  | Cmd.bold true => true
  | _ => false

/-- True exactly on a `leftRight` command. -/
def isLRc : Cmd → Bool
  | Cmd.leftRight _ _ => true
  | _ => false

/-- True exactly on `bold false`. -/
def isBF : Cmd → Bool
  | Cmd.bold false => true
  | _ => false

/-- True exactly on a `printQR` command. -/
def isQR : Cmd → Bool
  | Cmd.printQR _ => true
  | _ => false

/-- Commands that a per-item rendering step can produce. -/
def itemish : Cmd → Bool
  | Cmd.leftRight _ _ => true
  | Cmd.textSize _ _ => true
  | Cmd.println _ => true
  | Cmd.textNormal => true
  | _ => false

theorem itemish_isDL {c : Cmd} (h : itemish c = true) : isDL c = false := by
  cases c <;> simp_all [itemish, isDL]

theorem itemish_isBT {c : Cmd} (h : itemish c = true) : isBT c = false := by
  cases c <;> simp_all [itemish, isBT]

theorem itemish_isQR {c : Cmd} (h : itemish c = true) : isQR c = false := by
  cases c <;> simp_all [itemish, isQR]

/-- The list opens with the four-command subtotal pattern
`drawLine, bold(true), leftRight(_, _), bold(false)`. -/
def startsSubtotal : List Cmd → Bool
  | a :: b :: c :: d :: _ => isDL a && isBT b && isLRc c && isBF d
  | _ => false

/-- Number of positions at which the subtotal pattern starts. -/
def subtotalCount : List Cmd → Nat
  | [] => 0
  | c :: rest => (if startsSubtotal (c :: rest) then 1 else 0) + subtotalCount rest

theorem startsSubtotal_false_head {c : Cmd} (l : List Cmd) (h : isDL c = false) :
    startsSubtotal (c :: l) = false := by
  rcases l with _ | ⟨x, l⟩
  · rfl
  rcases l with _ | ⟨y, l⟩
  · rfl
  rcases l with _ | ⟨z, l⟩
  · rfl
  simp [startsSubtotal, h]

theorem startsSubtotal_false_second (a : Cmd) {b : Cmd} (l : List Cmd)
    (h : isBT b = false) : startsSubtotal (a :: b :: l) = false := by
  rcases l with _ | ⟨x, l⟩
  · rfl
  rcases l with _ | ⟨y, l⟩
  · rfl
  simp [startsSubtotal, h]

theorem startsSubtotal_false_third (a b : Cmd) {c : Cmd} (l : List Cmd)
    (h : isLRc c = false) : startsSubtotal (a :: b :: c :: l) = false := by
  rcases l with _ | ⟨x, l⟩
  · rfl
  simp [startsSubtotal, h]

theorem subtotalCount_cons (c : Cmd) (l : List Cmd) :
    subtotalCount (c :: l) = (if startsSubtotal (c :: l) then 1 else 0) + subtotalCount l := rfl

theorem subtotalCount_append_nodl (A B : List Cmd) (h : ∀ c ∈ A, isDL c = false) :
    subtotalCount (A ++ B) = subtotalCount B := by
  induction A with
  | nil => rfl
  | cons a tl ih =>
    rw [List.cons_append, subtotalCount_cons,
      startsSubtotal_false_head _ (h a (by simp))]
    simpa using ih (fun c hc => h c (by simp [hc]))

theorem subtotalCount_nodl (A : List Cmd) (h : ∀ c ∈ A, isDL c = false) :
    subtotalCount A = 0 := by
  have := subtotalCount_append_nodl A [] h
  simpa using this

theorem startsSubtotal_junction (A B : List Cmd) (h : ∀ c ∈ A, isBT c = false) :
    startsSubtotal (Cmd.drawLine :: (A ++ Cmd.drawLine :: B)) = false := by
  cases A with
  | nil => exact startsSubtotal_false_second _ _ (by rfl)
  | cons a tl =>
    rw [List.cons_append]
    exact startsSubtotal_false_second _ _ (h a (by simp))

/-! ## Segment membership facts -/

theorem itemLines_itemish (n p : String) (d : Option String) :
    ∀ c ∈ itemLines n p d, itemish c = true := by
  intro c hc
  by_cases hd : truthy d = true
  · simp [itemLines, hd] at hc
    rcases hc with rfl | rfl | rfl | rfl <;> rfl
  · simp [itemLines, Bool.eq_false_iff.mpr, hd] at hc
    rcases hc with rfl
    rfl

theorem regItem1_itemish (it : Item) : ∀ c ∈ regItem1 it, itemish c = true := by
  intro c hc
  cases hn : it.name with
  | none => simp [regItem1, hn] at hc
  | some n =>
    cases hsp : isSpecialName1 n with
    | true => simp [regItem1, hn, hsp] at hc
    | false =>
      rw [regItem1] at hc
      rw [hn] at hc
      simp only [hsp] at hc
      exact itemLines_itemish n it.price it.description c (by simpa using hc)

theorem regItem2_itemish (it : Item) : ∀ c ∈ regItem2 it, itemish c = true := by
  intro c hc
  cases hn : it.name with
  | none => simp [regItem2, hn] at hc
  | some n =>
    cases hsp : isSpecialName2 n with
    | true => simp [regItem2, hn, hsp] at hc
    | false =>
      rw [regItem2] at hc
      rw [hn] at hc
      simp only [hsp] at hc
      exact itemLines_itemish n it.price it.description c (by simpa using hc)

theorem regLoop1_itemish (l : List Item) :
    ∀ c ∈ (regularLoop1 l).2, itemish c = true := by
  rw [regLoop1_eq]
  exact forEachEmit_forall _ _ (fun it _ => regItem1_itemish it)

theorem regLoop2_itemish (l : List Item) :
    ∀ c ∈ (regularLoop2 l).2, itemish c = true := by
  rw [regLoop2_eq]
  exact forEachEmit_forall _ _ (fun it _ => regItem2_itemish it)

theorem lineEmit_itemish (p : String → Bool) (it : Item) :
    ∀ c ∈ lineEmit p it, itemish c = true := by
  intro c hc
  cases hn : it.name with
  | none => simp [lineEmit, hn] at hc
  | some n =>
    cases hp : p n with
    | true =>
      simp [lineEmit, hn, hp] at hc
      rcases hc with rfl
      rfl
    | false => simp [lineEmit, hn, hp] at hc

theorem discEmit1_itemish (l : List Item) :
    ∀ c ∈ forEachEmit l discEmit1, itemish c = true := by
  rw [discEmit1_eq_lineEmit]
  exact forEachEmit_forall _ _ (fun it _ => lineEmit_itemish discPred1 it)

theorem payEmit1_itemish (l : List Item) :
    ∀ c ∈ forEachEmit l payEmit1, itemish c = true := by
  rw [payEmit1_eq_lineEmit]
  exact forEachEmit_forall _ _ (fun it _ => lineEmit_itemish payPred1 it)

theorem chgEmit1_itemish (l : List Item) :
    ∀ c ∈ forEachEmit l chgEmit1, itemish c = true := by
  rw [chgEmit1_eq_lineEmit]
  exact forEachEmit_forall _ _ (fun it _ => lineEmit_itemish chgPred1 it)

theorem specEmit2_itemish (l : List Item) :
    ∀ c ∈ forEachEmit l specEmit2, itemish c = true := by
  refine forEachEmit_forall _ _ (fun it _ c hc => ?_)
  cases hn : it.name with
  | none => simp [specEmit2, hn] at hc
  | some n =>
    cases hp : passPred2 n with
    | false => simp [specEmit2, hn, hp] at hc
    | true =>
      cases hq : payish2 n with
      | true =>
        simp [specEmit2, hn, hp, hq] at hc
        rcases hc with rfl | rfl | rfl <;> rfl
      | false =>
        simp [specEmit2, hn, hp, hq] at hc
        rcases hc with rfl
        rfl

theorem headCore1_nodl (o : Order) : ∀ c ∈ headCore1 o, isDL c = false := by
  intro c hc
  simp only [headCore1, List.mem_append] at hc
  rcases hc with (hc | hc) | hc
  · simp at hc
    rcases hc with rfl | rfl | rfl | rfl | rfl | rfl | rfl | rfl <;> rfl
  · split at hc <;> simp at hc
    rcases hc with rfl
    rfl
  · split at hc <;> simp at hc
    rcases hc with rfl
    rfl

theorem headCore2_nodl (o : Order) : ∀ c ∈ headCore2 o, isDL c = false := by
  intro c hc
  simp only [headCore2, List.mem_append] at hc
  rcases hc with ((hc | hc) | hc) | hc
  · simp at hc
    rcases hc with rfl | rfl | rfl | rfl | rfl | rfl | rfl | rfl | rfl <;> rfl
  · split at hc <;> simp at hc
    rcases hc with rfl
    rfl
  · split at hc <;> simp at hc
    rcases hc with rfl
    rfl
  · simp at hc
    rcases hc with rfl
    rfl

theorem totBlock1_nodl (o : Order) : ∀ c ∈ totBlock1 o, isDL c = false := by
  intro c hc
  rw [totBlock1] at hc
  split at hc <;> simp at hc
  rcases hc with rfl | rfl | rfl | rfl | rfl <;> rfl

theorem totBlock2_nodl (o : Order) : ∀ c ∈ totBlock2 o, isDL c = false := by
  intro c hc
  rw [totBlock2] at hc
  split at hc <;> simp at hc
  rcases hc with rfl | rfl | rfl | rfl | rfl <;> rfl

theorem footBlock1_nodl (o : Order) : ∀ c ∈ footBlock1 o, isDL c = false := by
  intro c hc
  rw [footBlock1] at hc
  split at hc <;> simp at hc
  rcases hc with rfl | rfl | rfl | rfl | rfl <;> rfl

theorem footBlock2_nodl (o : Order) : ∀ c ∈ footBlock2 o, isDL c = false := by
  intro c hc
  rw [footBlock2] at hc
  split at hc <;> simp at hc
  rcases hc with rfl | rfl | rfl <;> rfl

theorem qrBlock1_nodl (o : Order) (qrOk : Bool) : ∀ c ∈ qrBlock1 o qrOk, isDL c = false := by
  intro c hc
  rw [qrBlock1] at hc
  split at hc <;> simp at hc
  · rcases hc with rfl | rfl | rfl | rfl | rfl | rfl <;> rfl
  · rcases hc with rfl | rfl <;> rfl

theorem qrBlock2_nodl (o : Order) (qrOk : Bool) : ∀ c ∈ qrBlock2 o qrOk, isDL c = false := by
  intro c hc
  simp only [qrBlock2, List.mem_cons] at hc
  rcases hc with rfl | hc
  · rfl
  · split at hc
    · split at hc <;> simp at hc
      rcases hc with rfl | rfl <;> rfl
    · simp at hc

theorem tail1_nodl (o : Order) (qrOk : Bool) : ∀ c ∈ tail1 o qrOk, isDL c = false := by
  intro c hc
  simp only [tail1, List.mem_append] at hc
  rcases hc with (((hc | hc) | hc) | hc) | hc
  · exact totBlock1_nodl o c hc
  · simp at hc
    rcases hc with rfl | rfl | rfl | rfl | rfl | rfl | rfl <;> rfl
  · exact footBlock1_nodl o c hc
  · exact qrBlock1_nodl o qrOk c hc
  · simp at hc
    rcases hc with rfl
    rfl

theorem tail2_nodl (o : Order) (qrOk : Bool) : ∀ c ∈ tail2 o qrOk, isDL c = false := by
  intro c hc
  simp only [tail2, List.mem_append] at hc
  rcases hc with (((hc | hc) | hc) | hc) | hc
  · exact totBlock2_nodl o c hc
  · simp at hc
    rcases hc with rfl | rfl | rfl | rfl | rfl | rfl | rfl | rfl | rfl | rfl <;> rfl
  · exact qrBlock2_nodl o qrOk c hc
  · exact footBlock2_nodl o c hc
  · simp at hc
    rcases hc with rfl
    rfl

/-! ## Structural decomposition of the two renders -/

theorem render1_structure (o : Order) (l : List Item) (qrOk : Bool)
    (hi : o.items = some l) (hs : l.any isSpecialItem1 = true) :
    renderReceipt1 o qrOk =
      headCore1 o ++ Cmd.drawLine ::
        ((regularLoop1 l).2 ++ Cmd.drawLine :: Cmd.bold true ::
          Cmd.leftRight "ZWISCHENSUMME:" (jsStr o.total) :: Cmd.bold false ::
          (forEachEmit l discEmit1 ++ Cmd.drawLine ::
            (forEachEmit l payEmit1 ++ (forEachEmit l chgEmit1 ++
              Cmd.drawLine :: tail1 o qrOk)))) := by
  have hflag : (regularLoop1 l).1 = true := by rw [regLoop1_eq]; exact hs
  simp [renderReceipt1, hi, itemsBlock1, hflag, List.append_assoc]

theorem render2_structure (o : Order) (l : List Item) (qrOk : Bool)
    (hi : o.items = some l) (hs : l.any isSpecialItem2 = true) :
    renderReceipt2 o qrOk =
      headCore2 o ++ Cmd.drawLine ::
        ((regularLoop2 l).2 ++ Cmd.drawLine ::
          (forEachEmit l specEmit2 ++ Cmd.drawLine :: tail2 o qrOk)) := by
  have hflag : (regularLoop2 l).1 = true := by rw [regLoop2_eq]; exact hs
  simp [renderReceipt2, hi, itemsBlock2, hflag, List.append_assoc]

theorem startsSubtotal_dl_tail1 (o : Order) (qrOk : Bool) :
    startsSubtotal (Cmd.drawLine :: tail1 o qrOk) = false := by
  by_cases ht : truthy o.total = true
  · simp only [tail1, totBlock1, ht, if_true, List.cons_append, List.append_assoc]
    exact startsSubtotal_false_third _ _ _ (by rfl)
  · have ht2 : truthy o.total = false := by simpa using ht
    simp only [tail1, totBlock1, ht2, Bool.false_eq_true, if_false, List.nil_append,
      List.cons_append, List.append_assoc]
    exact startsSubtotal_false_second _ _ (by rfl)

theorem startsSubtotal_dl_tail2 (o : Order) (qrOk : Bool) :
    startsSubtotal (Cmd.drawLine :: tail2 o qrOk) = false := by
  by_cases ht : truthy o.total = true
  · simp only [tail2, totBlock2, ht, if_true, List.cons_append, List.append_assoc]
    exact startsSubtotal_false_third _ _ _ (by rfl)
  · have ht2 : truthy o.total = false := by simpa using ht
    simp only [tail2, totBlock2, ht2, Bool.false_eq_true, if_false, List.nil_append,
      List.cons_append, List.append_assoc]
    exact startsSubtotal_false_second _ _ (by rfl)

theorem subtotalCount_tail1 (o : Order) (qrOk : Bool) :
    subtotalCount (Cmd.drawLine :: tail1 o qrOk) = 0 := by
  rw [subtotalCount_cons, startsSubtotal_dl_tail1]
  simpa using subtotalCount_nodl _ (tail1_nodl o qrOk)

theorem subtotalCount_tail2 (o : Order) (qrOk : Bool) :
    subtotalCount (Cmd.drawLine :: tail2 o qrOk) = 0 := by
  rw [subtotalCount_cons, startsSubtotal_dl_tail2]
  simpa using subtotalCount_nodl _ (tail2_nodl o qrOk)

theorem subtotalCount_render1 (o : Order) (l : List Item) (qrOk : Bool)
    (hi : o.items = some l) (hs : l.any isSpecialItem1 = true) :
    subtotalCount (renderReceipt1 o qrOk) = 1 := by
  rw [render1_structure o l qrOk hi hs]
  rw [subtotalCount_append_nodl _ _ (headCore1_nodl o)]
  rw [subtotalCount_cons,
    startsSubtotal_junction _ _ (fun c hc => itemish_isBT (regLoop1_itemish l c hc))]
  simp only [Bool.false_eq_true, if_false, Nat.zero_add]
  rw [subtotalCount_append_nodl _ _ (fun c hc => itemish_isDL (regLoop1_itemish l c hc))]
  rw [subtotalCount_cons]
  have hstart : startsSubtotal (Cmd.drawLine :: Cmd.bold true ::
      Cmd.leftRight "ZWISCHENSUMME:" (jsStr o.total) :: Cmd.bold false ::
      (forEachEmit l discEmit1 ++ Cmd.drawLine ::
        (forEachEmit l payEmit1 ++ (forEachEmit l chgEmit1 ++
          Cmd.drawLine :: tail1 o qrOk)))) = true := rfl
  rw [hstart]
  simp only [if_true]
  have hrest : subtotalCount (Cmd.bold true ::
      Cmd.leftRight "ZWISCHENSUMME:" (jsStr o.total) :: Cmd.bold false ::
      (forEachEmit l discEmit1 ++ Cmd.drawLine ::
        (forEachEmit l payEmit1 ++ (forEachEmit l chgEmit1 ++
          Cmd.drawLine :: tail1 o qrOk)))) = 0 := by
    have e1 : Cmd.bold true ::
        Cmd.leftRight "ZWISCHENSUMME:" (jsStr o.total) :: Cmd.bold false ::
        (forEachEmit l discEmit1 ++ Cmd.drawLine ::
          (forEachEmit l payEmit1 ++ (forEachEmit l chgEmit1 ++
            Cmd.drawLine :: tail1 o qrOk))) =
        ([Cmd.bold true, Cmd.leftRight "ZWISCHENSUMME:" (jsStr o.total),
          Cmd.bold false] ++ forEachEmit l discEmit1) ++ Cmd.drawLine ::
          (forEachEmit l payEmit1 ++ (forEachEmit l chgEmit1 ++
            Cmd.drawLine :: tail1 o qrOk)) := by
      simp [List.append_assoc]
    rw [e1]
    rw [subtotalCount_append_nodl _ _ ?hA]
    case hA =>
      intro c hc
      rcases List.mem_append.mp hc with hc | hc
      · simp at hc
        rcases hc with rfl | rfl | rfl <;> rfl
      · exact itemish_isDL (discEmit1_itemish l c hc)
    rw [subtotalCount_cons]
    have e2 : forEachEmit l payEmit1 ++ (forEachEmit l chgEmit1 ++
        Cmd.drawLine :: tail1 o qrOk) =
        (forEachEmit l payEmit1 ++ forEachEmit l chgEmit1) ++
          Cmd.drawLine :: tail1 o qrOk := by
      simp [List.append_assoc]
    rw [e2]
    rw [startsSubtotal_junction _ _ ?hB]
    case hB =>
      intro c hc
      rcases List.mem_append.mp hc with hc | hc
      · exact itemish_isBT (payEmit1_itemish l c hc)
      · exact itemish_isBT (chgEmit1_itemish l c hc)
    simp only [Bool.false_eq_true, if_false, Nat.zero_add]
    rw [subtotalCount_append_nodl _ _ ?hC]
    case hC =>
      intro c hc
      rcases List.mem_append.mp hc with hc | hc
      · exact itemish_isDL (payEmit1_itemish l c hc)
      · exact itemish_isDL (chgEmit1_itemish l c hc)
    exact subtotalCount_tail1 o qrOk
  rw [hrest]

theorem subtotalCount_render2 (o : Order) (l : List Item) (qrOk : Bool)
    (hi : o.items = some l) (hs : l.any isSpecialItem2 = true) :
    subtotalCount (renderReceipt2 o qrOk) = 0 := by
  rw [render2_structure o l qrOk hi hs]
  rw [subtotalCount_append_nodl _ _ (headCore2_nodl o)]
  rw [subtotalCount_cons,
    startsSubtotal_junction _ _ (fun c hc => itemish_isBT (regLoop2_itemish l c hc))]
  simp only [Bool.false_eq_true, if_false, Nat.zero_add]
  rw [subtotalCount_append_nodl _ _ (fun c hc => itemish_isDL (regLoop2_itemish l c hc))]
  rw [subtotalCount_cons,
    startsSubtotal_junction _ _ (fun c hc => itemish_isBT (specEmit2_itemish l c hc))]
  simp only [Bool.false_eq_true, if_false, Nat.zero_add]
  rw [subtotalCount_append_nodl _ _ (fun c hc => itemish_isDL (specEmit2_itemish l c hc))]
  exact subtotalCount_tail2 o qrOk

/-! ## Trace and last-command lemmas -/

theorem postExec_skip (A B : List POp) (h : ∀ x ∈ A, x ≠ POp.execute) :
    postExec (A ++ POp.execute :: B) = B := by
  induction A with
  | nil => rfl
  | cons a tl ih =>
    have ha : a ≠ POp.execute := h a (by simp)
    cases a with
    | clear => exact ih (fun x hx => h x (by simp [hx]))
    | append c => exact ih (fun x hx => h x (by simp [hx]))
    | execute => exact absurd rfl ha

theorem getLast_cut (A B : List Cmd) :
    (A ++ (B ++ [Cmd.cut])).getLast? = some Cmd.cut := by
  rw [← List.append_assoc, List.getLast?_append_cons]
  rfl

theorem render1_ends_cut (o : Order) (qrOk : Bool) :
    (renderReceipt1 o qrOk).getLast? = some Cmd.cut := by
  have e : renderReceipt1 o qrOk =
      (headCore1 o ++ [Cmd.drawLine] ++
        (match o.items with
         | none => []
         | some l => itemsBlock1 l o.total) ++ [Cmd.drawLine]) ++
      ((totBlock1 o ++
        [Cmd.newLine, Cmd.alignCenter, Cmd.println "Enthaltene MwSt. 19%",
         Cmd.newLine, Cmd.println "BankLy LLC German Branch",
         Cmd.println "Mainzer Landstraße 55", Cmd.println "60325 Frankfurt, Germany"] ++
        footBlock1 o ++ qrBlock1 o qrOk) ++ [Cmd.cut]) := by
    simp [renderReceipt1, tail1, List.append_assoc]
  rw [e, getLast_cut]

theorem render2_ends_cut (o : Order) (qrOk : Bool) :
    (renderReceipt2 o qrOk).getLast? = some Cmd.cut := by
  have e : renderReceipt2 o qrOk =
      (headCore2 o ++ [Cmd.drawLine] ++
        (match o.items with
         | none => []
         | some l => itemsBlock2 l)) ++
      ((totBlock2 o ++
        [Cmd.newLine, Cmd.alignCenter, Cmd.textSize 0 0,
         Cmd.println "Enthaltene MwSt. 19%", Cmd.textNormal, Cmd.newLine,
         Cmd.println "BankLy LLC German Branch", Cmd.println "Mainzer Landstraße 55",
         Cmd.println "60325 Frankfurt, Germany", Cmd.newLine] ++
        qrBlock2 o qrOk ++ footBlock2 o) ++ [Cmd.cut]) := by
    simp [renderReceipt2, tail2, List.append_assoc]
  rw [e, getLast_cut]

/-! ## QR-freedom of the failure renders -/

theorem headCore1_noqr (o : Order) : ∀ c ∈ headCore1 o, isQR c = false := by
  intro c hc
  simp only [headCore1, List.mem_append] at hc
  rcases hc with (hc | hc) | hc
  · simp at hc
    rcases hc with rfl | rfl | rfl | rfl | rfl | rfl | rfl | rfl <;> rfl
  · split at hc <;> simp at hc
    rcases hc with rfl
    rfl
  · split at hc <;> simp at hc
    rcases hc with rfl
    rfl

theorem headCore2_noqr (o : Order) : ∀ c ∈ headCore2 o, isQR c = false := by
  intro c hc
  simp only [headCore2, List.mem_append] at hc
  rcases hc with ((hc | hc) | hc) | hc
  · simp at hc
    rcases hc with rfl | rfl | rfl | rfl | rfl | rfl | rfl | rfl | rfl <;> rfl
  · split at hc <;> simp at hc
    rcases hc with rfl
    rfl
  · split at hc <;> simp at hc
    rcases hc with rfl
    rfl
  · simp at hc
    rcases hc with rfl
    rfl

theorem itemsBlock1_noqr (l : List Item) (total : Option String) :
    ∀ c ∈ itemsBlock1 l total, isQR c = false := by
  intro c hc
  simp only [itemsBlock1, List.mem_append] at hc
  rcases hc with hc | hc
  · exact itemish_isQR (regLoop1_itemish l c hc)
  · split at hc
    · simp only [List.append_assoc, List.cons_append, List.nil_append,
        List.mem_cons, List.mem_append] at hc
      rcases hc with rfl | rfl | rfl | rfl | hc | rfl | hc | hc
      · rfl
      · rfl
      · rfl
      · rfl
      · exact itemish_isQR (discEmit1_itemish l c hc)
      · rfl
      · exact itemish_isQR (payEmit1_itemish l c hc)
      · exact itemish_isQR (chgEmit1_itemish l c hc)
    · simp at hc

theorem itemsBlock2_noqr (l : List Item) :
    ∀ c ∈ itemsBlock2 l, isQR c = false := by
  intro c hc
  simp only [itemsBlock2, List.mem_append] at hc
  rcases hc with hc | hc
  · exact itemish_isQR (regLoop2_itemish l c hc)
  · split at hc
    · simp only [List.mem_cons, List.mem_append] at hc
      rcases hc with rfl | hc | hc
      · rfl
      · exact itemish_isQR (specEmit2_itemish l c hc)
      · simp at hc
        rcases hc with rfl
        rfl
    · simp at hc
      rcases hc with rfl
      rfl

theorem totBlock1_noqr (o : Order) : ∀ c ∈ totBlock1 o, isQR c = false := by
  intro c hc
  rw [totBlock1] at hc
  split at hc <;> simp at hc
  rcases hc with rfl | rfl | rfl | rfl | rfl <;> rfl

theorem totBlock2_noqr (o : Order) : ∀ c ∈ totBlock2 o, isQR c = false := by
  intro c hc
  rw [totBlock2] at hc
  split at hc <;> simp at hc
  rcases hc with rfl | rfl | rfl | rfl | rfl <;> rfl

theorem footBlock1_noqr (o : Order) : ∀ c ∈ footBlock1 o, isQR c = false := by
  intro c hc
  rw [footBlock1] at hc
  split at hc <;> simp at hc
  rcases hc with rfl | rfl | rfl | rfl | rfl <;> rfl

theorem footBlock2_noqr (o : Order) : ∀ c ∈ footBlock2 o, isQR c = false := by
  intro c hc
  rw [footBlock2] at hc
  split at hc <;> simp at hc
  rcases hc with rfl | rfl | rfl <;> rfl

theorem tail1_noqr_fail (o : Order) : ∀ c ∈ tail1 o false, isQR c = false := by
  intro c hc
  simp only [tail1, List.mem_append] at hc
  rcases hc with (((hc | hc) | hc) | hc) | hc
  · exact totBlock1_noqr o c hc
  · simp at hc
    rcases hc with rfl | rfl | rfl | rfl | rfl | rfl | rfl <;> rfl
  · exact footBlock1_noqr o c hc
  · simp [qrBlock1] at hc
    rcases hc with rfl | rfl <;> rfl
  · simp at hc
    rcases hc with rfl
    rfl

theorem tail2_noqr_fail (o : Order) : ∀ c ∈ tail2 o false, isQR c = false := by
  intro c hc
  simp only [tail2, List.mem_append] at hc
  rcases hc with (((hc | hc) | hc) | hc) | hc
  · exact totBlock2_noqr o c hc
  · simp at hc
    rcases hc with rfl | rfl | rfl | rfl | rfl | rfl | rfl | rfl | rfl | rfl <;> rfl
  · simp only [qrBlock2, List.mem_cons] at hc
    rcases hc with rfl | hc
    · rfl
    · split at hc <;> simp at hc
  · exact footBlock2_noqr o c hc
  · simp at hc
    rcases hc with rfl
    rfl

theorem render1_noqr (o : Order) : ∀ c ∈ renderReceipt1 o false, isQR c = false := by
  intro c hc
  simp only [renderReceipt1, List.mem_append] at hc
  rcases hc with (((hc | hc) | hc) | hc) | hc
  · exact headCore1_noqr o c hc
  · simp at hc
    rcases hc with rfl
    rfl
  · cases hi : o.items with
    | none => rw [hi] at hc; simp at hc
    | some l => rw [hi] at hc; exact itemsBlock1_noqr l o.total c hc
  · simp at hc
    rcases hc with rfl
    rfl
  · exact tail1_noqr_fail o c hc

theorem render2_noqr (o : Order) : ∀ c ∈ renderReceipt2 o false, isQR c = false := by
  intro c hc
  simp only [renderReceipt2, List.mem_append] at hc
  rcases hc with ((hc | hc) | hc) | hc
  · exact headCore2_noqr o c hc
  · simp at hc
    rcases hc with rfl
    rfl
  · cases hi : o.items with
    | none => rw [hi] at hc; simp at hc
    | some l => rw [hi] at hc; exact itemsBlock2_noqr l c hc
  · exact tail2_noqr_fail o c hc

/-! ## Concrete request payloads used by witnesses and counterexamples -/

/-- Two-item list: one ordinary product, one discount item. -/
def demoItems : List Item :=
  [⟨some "Brot", "2,50", none⟩, ⟨some "Rabatt Aktion", "-1,00", none⟩]

/-- Order with a discount item and a caller-supplied total. -/
def oSubW : Order := ⟨none, none, none, some demoItems, some "1,50", none⟩

/-- Order with a discount item, an order number and a total. -/
def oC1 : Order := ⟨none, some "77", none, some demoItems, some "1,50", none⟩

/-- Order whose only special items are a payment-method line and a
change line. -/
def oPay : Order :=
  ⟨none, none, none,
   some [⟨some "Zahlungsart", "Karte", none⟩, ⟨some "Rückgeld", "0,00", none⟩],
   some "10,00", none⟩

/-- Order whose special items are a payment-method line followed by a
discount line, in that request order. -/
def oMix : Order :=
  ⟨none, none, none,
   some [⟨some "Zahlungsart", "Karte", none⟩, ⟨some "Rabatt Aktion", "-1,00", none⟩],
   some "9,00", none⟩

/-- Three-item list whose middle item lacks a name. -/
def demo3 : List Item :=
  [⟨some "Brot", "2,50", none⟩, ⟨none, "1,00", none⟩, ⟨some "Milch", "1,20", none⟩]

/-- Completely empty order. -/
def o0 : Order := ⟨none, none, none, none, none, none⟩

/-- Order carrying only a total. -/
def oQrW : Order := ⟨none, none, none, none, some "5,00", none⟩

/-! ## Claim C1 -/

/-- C1, counterexample: in the part_000 variant of `/print/receipt` a
receipt with a discount item and a caller-supplied total is rendered
with no subtotal line at all — the claimed pattern `DrawLine,
Bold(true), LeftRight(label, total), Bold(false)` occurs zero times,
refuting "the rendered command sequence contains exactly one subtotal
line". -/
theorem receipt2_no_subtotal_cex :
    (oC1.items.getD []).any isSpecialItem2 = true ∧
    truthy oC1.total = true ∧
    subtotalCount (renderReceipt2 oC1 true) = 0 := by decide

/-- C1, amended: in the `src/index.js` variant the rendered sequence
contains exactly one subtotal line `DrawLine, Bold(true),
LeftRight("ZWISCHENSUMME:", total), Bold(false)` with the
caller-supplied total verbatim, positioned after all regular-item lines
and before all special-item lines; the part_000 variant emits no
subtotal line (only a bare `DrawLine` separator). -/
theorem subtotal_once_amended (o : Order) (l : List Item) (t : String) (qrOk : Bool)
    (hi : o.items = some l) (ht : o.total = some t)
    (h1 : l.any isSpecialItem1 = true) (h2 : l.any isSpecialItem2 = true) :
    renderReceipt1 o qrOk =
      headCore1 o ++ Cmd.drawLine ::
        ((regularLoop1 l).2 ++ Cmd.drawLine :: Cmd.bold true ::
          Cmd.leftRight "ZWISCHENSUMME:" t :: Cmd.bold false ::
          (forEachEmit l discEmit1 ++ Cmd.drawLine ::
            (forEachEmit l payEmit1 ++ (forEachEmit l chgEmit1 ++
              Cmd.drawLine :: tail1 o qrOk)))) ∧
    subtotalCount (renderReceipt1 o qrOk) = 1 ∧
    subtotalCount (renderReceipt2 o qrOk) = 0 := by
  have hjs : jsStr o.total = t := by rw [ht]; rfl
  refine ⟨?_, subtotalCount_render1 o l qrOk hi h1, subtotalCount_render2 o l qrOk hi h2⟩
  have hst := render1_structure o l qrOk hi h1
  rw [hjs] at hst
  exact hst

/-- C1, witness: the amended theorem applied to a concrete order with a
discount item. -/
theorem subtotal_once_amended_witness :
    subtotalCount (renderReceipt1 oSubW true) = 1 ∧
    subtotalCount (renderReceipt2 oSubW true) = 0 := by
  have h := subtotal_once_amended oSubW demoItems "1,50" true rfl rfl
    (by decide) (by decide)
  exact ⟨h.2.1, h.2.2⟩

/-! ## Claim C2 -/

/-- C2, counterexample: in `src/index.js` the payment-pass line and the
change-pass line are adjacent — no `DrawLine` separates the second pass
from the third — and in part_000 a payment-method line is emitted
before a discount line (a single pass in request order), refuting
"three explicit passes … with a DrawLine command separating each pass
from the next". -/
theorem special_passes_cex :
    listSub (renderReceipt1 oPay true)
      [Cmd.leftRight "Zahlungsart" "Karte", Cmd.leftRight "Rückgeld" "0,00"] = true ∧
    listSub (renderReceipt2 oMix true)
      [Cmd.leftRight "Zahlungsart:" "Karte", Cmd.textNormal,
       Cmd.leftRight "Rabatt Aktion" "-1,00"] = true := by decide

/-- C2, amended: in the `src/index.js` variant the special items are
emitted in three passes over the full item list — discount/credit, then
payment-method, then change — each pass a pure filter of the unmodified
source list, with a single `DrawLine` between the discount and payment
passes and none between the payment and change passes; the part_000
variant emits all special items in one pass over the full list. -/
theorem special_passes_amended (o : Order) (l : List Item) (qrOk : Bool)
    (hi : o.items = some l) (h1 : l.any isSpecialItem1 = true)
    (h2 : l.any isSpecialItem2 = true) :
    renderReceipt1 o qrOk =
      headCore1 o ++ Cmd.drawLine ::
        ((regularLoop1 l).2 ++ Cmd.drawLine :: Cmd.bold true ::
          Cmd.leftRight "ZWISCHENSUMME:" (jsStr o.total) :: Cmd.bold false ::
          (forEachEmit l discEmit1 ++ Cmd.drawLine ::
            (forEachEmit l payEmit1 ++ (forEachEmit l chgEmit1 ++
              Cmd.drawLine :: tail1 o qrOk)))) ∧
    forEachEmit l discEmit1 =
      (l.filter isDiscItem1).map (fun it => Cmd.leftRight (jsStr it.name) it.price) ∧
    forEachEmit l payEmit1 =
      (l.filter isPayItem1).map (fun it => Cmd.leftRight (jsStr it.name) it.price) ∧
    forEachEmit l chgEmit1 =
      (l.filter isChgItem1).map (fun it => Cmd.leftRight (jsStr it.name) it.price) ∧
    renderReceipt2 o qrOk =
      headCore2 o ++ Cmd.drawLine ::
        ((regularLoop2 l).2 ++ Cmd.drawLine ::
          (forEachEmit l specEmit2 ++ Cmd.drawLine :: tail2 o qrOk)) := by
  refine ⟨render1_structure o l qrOk hi h1, ?_, ?_, ?_,
    render2_structure o l qrOk hi h2⟩
  · rw [discEmit1_eq_lineEmit, isDiscItem1_eq_lift]
    exact forEachEmit_lineEmit _ l
  · rw [payEmit1_eq_lineEmit, isPayItem1_eq_lift]
    exact forEachEmit_lineEmit _ l
  · rw [chgEmit1_eq_lineEmit, isChgItem1_eq_lift]
    exact forEachEmit_lineEmit _ l

/-- C2, witness: the amended theorem applied to a concrete order;
the discount pass equals the filter of the full list. -/
theorem special_passes_amended_witness :
    forEachEmit demoItems discEmit1 =
      (demoItems.filter isDiscItem1).map
        (fun it => Cmd.leftRight (jsStr it.name) it.price) :=
  (special_passes_amended oSubW demoItems true rfl (by decide) (by decide)).2.1

/-! ## Claim C3 -/

/-- C3, counterexample: the two variants do not share a single fixed
classification predicate, and `src/index.js` has no amount-tendered
label at all — the item named `Gegeben` is regular in `src/index.js`
but special in part_000. -/
theorem classifier_predicate_cex :
    isSpecialItem1 ⟨some "Gegeben", "50,00", none⟩ = false ∧
    isSpecialItem2 ⟨some "Gegeben", "50,00", none⟩ = true := by decide

/-- C3, amended: within each variant one fixed name-based predicate
decides the classification and is applied identically in the skip pass
and the special-item passes: in `src/index.js` the skip predicate
equals the disjunction of the three pass predicates (contains `Rabatt`
or `Gutschrift`, case-sensitive equality with `Zahlungsart` or
`Rückgeld`; there is no amount-tendered label), and in part_000 the
skip predicate of lines 95–100 coincides with the special-pass
predicate of lines 125–130 (contains the markers, or lowercases to
`zahlungsart`, `rückgeld` or `gegeben`). -/
theorem classifier_predicate_amended (n : String) :
    isSpecialName1 n = (discPred1 n || payPred1 n || chgPred1 n) ∧
    isSpecialName2 n = passPred2 n := by
  constructor
  · simp [isSpecialName1, discPred1, payPred1, chgPred1, Bool.or_assoc]
  · simp only [isSpecialName2, passPred2]
    cases ha : strHasSub n "Rabatt" <;> cases hb : strHasSub n "Gutschrift" <;>
      cases h1 : (jsToLower n == "zahlungsart") <;>
      cases h2 : (jsToLower n == "rückgeld") <;>
      cases h3 : (jsToLower n == "gegeben") <;> simp [ha, hb, h1, h2, h3]

/-! ## Claim C4 -/

/-- C4, code bug evaluation: the deposit route's cleaning step
(`/\\D/g`, part_000 line 341) leaves the non-digits of `AB-12` in
place and only removes literal backslash-`D` sequences, while the
standalone barcode route's `/\D/g` (line 443) removes exactly the
non-digits, contradicting the deposit route's own `Remove non-digits`
comment and the spec. -/
theorem deposit_strip_divergence :
    stripLitBD "AB-12" = "AB-12" ∧
    stripNonDigits "AB-12" = "12" ∧
    stripLitBD "\\D42" = "42" := by decide

/-! ## Claim C5 -/

/-- C5, counterexample: the standalone `/print/barcode` route does not
left-pad the two digits of `"42"` to `"000000000042"` — it rejects the
request as a client error without appending any printer command,
refuting "barcode normalization left-pads the digits with 0 to width
12" for that code path. -/
theorem pad_standalone_cex :
    isClientError (barcodeHandler (some "42") false).1 = true ∧
    (barcodeHandler (some "42") false).2 = [] := by decide

/-- C5, amended: only the deposit-slip path pads: whenever its cleaned
value (see C4: only literal backslash-D sequences are removed) is
shorter than 12 characters it is left-padded with `'0'` to width 12,
and the all-digit input `"42"` yields `"000000000042"`; the standalone
barcode route instead rejects every id whose digit count is below 12
with a client error, before any printer operation. -/
theorem pad_to_twelve_amended (s i : String) (e : Bool)
    (hlen : (stripLitBD s).length < 12)
    (hi : (stripNonDigits i).length < 12) :
    depositBarcodeValue s = padStart12 (stripLitBD s) ∧
    depositBarcodeValue "42" = "000000000042" ∧
    isClientError (barcodeHandler (some i) e).1 = true ∧
    (barcodeHandler (some i) e).2 = [] := by
  have hdep : depositBarcodeValue s = padStart12 (stripLitBD s) := by
    rw [depositBarcodeValue]
    have h13 : ((stripLitBD s).length == 13) = false := by
      simp only [beq_eq_false_iff_ne]
      omega
    simp only [h13, Bool.false_eq_true, if_false, hlen, if_pos]
  have hbar : isClientError (barcodeHandler (some i) e).1 = true ∧
      (barcodeHandler (some i) e).2 = [] := by
    by_cases h0 : (i == "") = true
    · simp [barcodeHandler, h0, isClientError]
    · have h0f : (i == "") = false := by simpa using h0
      have hb13 : ((stripNonDigits i).length == 13) = false := by
        simp only [beq_eq_false_iff_ne]
        omega
      have hb12 : ((stripNonDigits i).length != 12) = true := by
        simp only [bne_iff_ne]
        omega
      simp [barcodeHandler, h0f, hb13, hb12, isClientError]
  exact ⟨hdep, by decide, hbar.1, hbar.2⟩

/-- C5, witness: the amended theorem applied to the inputs `"4-2"`
(deposit path) and `"42"` (standalone path). -/
theorem pad_to_twelve_amended_witness :
    depositBarcodeValue "4-2" = padStart12 (stripLitBD "4-2") ∧
    depositBarcodeValue "42" = "000000000042" ∧
    isClientError (barcodeHandler (some "42") true).1 = true := by
  have h := pad_to_twelve_amended "4-2" "42" true (by decide) (by decide)
  exact ⟨h.1, h.2.1, h.2.2.1⟩

/-! ## Claim C6 -/

/-- C6, counterexample: the decorative deposit path does not report any
error for an input that cleans to zero digits and does not omit the
barcode — it pads to the all-zero value `"000000000000"` and emits the
barcode command, refuting the claimed `InvalidBarcodeInput` behaviour
for that caller. -/
theorem zero_digit_allzero_cex :
    depositBarcodeBlock (some "\\D") =
      [Cmd.alignCenter, Cmd.printBarcode "000000000000" 67, Cmd.newLine] := by decide

/-- C6, amended: for inputs cleaning to zero digits the standalone
barcode route does surface a client error with no printer operation,
but the deposit-slip path neither errors nor omits the barcode: it pads
to the all-zero value `"000000000000"` and prints it. -/
theorem zero_digit_amended (s i : String) (e : Bool)
    (hne : (s == "") = false)
    (hs0 : (stripLitBD s).length = 0)
    (hi0 : (stripNonDigits i).length = 0) :
    depositBarcodeValue s = "000000000000" ∧
    depositBarcodeBlock (some s) =
      [Cmd.alignCenter, Cmd.printBarcode "000000000000" 67, Cmd.newLine] ∧
    isClientError (barcodeHandler (some i) e).1 = true ∧
    (barcodeHandler (some i) e).2 = [] := by
  have hempty : stripLitBD s = "" := by
    cases h : stripLitBD s with
    | mk data =>
      rw [h] at hs0
      have : data = [] := List.length_eq_zero.mp hs0
      rw [this]
  have hval : depositBarcodeValue s = "000000000000" := by
    rw [depositBarcodeValue, hempty]
    decide
  have htr : truthy (some s) = true := by simp [truthy, hne]
  have hblock : depositBarcodeBlock (some s) =
      [Cmd.alignCenter, Cmd.printBarcode "000000000000" 67, Cmd.newLine] := by
    rw [depositBarcodeBlock, if_pos htr]
    have : (some s).getD "" = s := rfl
    rw [this, hval]
  have hbar : isClientError (barcodeHandler (some i) e).1 = true ∧
      (barcodeHandler (some i) e).2 = [] := by
    by_cases h0 : (i == "") = true
    · simp [barcodeHandler, h0, isClientError]
    · have h0f : (i == "") = false := by simpa using h0
      have hb13 : ((stripNonDigits i).length == 13) = false := by
        simp only [beq_eq_false_iff_ne]
        omega
      have hb12 : ((stripNonDigits i).length != 12) = true := by
        simp only [bne_iff_ne]
        omega
      simp [barcodeHandler, h0f, hb13, hb12, isClientError]
  exact ⟨hval, hblock, hbar.1, hbar.2⟩

/-- C6, witness: the amended theorem applied to the zero-digit inputs
`"\D"` (deposit path) and `"abc"` (standalone path). -/
theorem zero_digit_amended_witness :
    depositBarcodeValue "\\D" = "000000000000" ∧
    isClientError (barcodeHandler (some "abc") true).1 = true := by
  have h := zero_digit_amended "\\D" "abc" true (by decide) (by decide) (by decide)
  exact ⟨h.1, h.2.2.1⟩

/-! ## Claim C7 -/

/-- C7: per-item rendering failure is isolated in both variants — an
item lacking a name leaves the regular-items loop result (flag and
emitted commands) exactly as if that item were absent, and the concrete
three-item list with one malformed middle item renders exactly two
`leftRight` item lines, not zero. -/
theorem item_fault_isolation (l1 l2 : List Item) (bad : Item)
    (hb : bad.name = none) :
    regularLoop1 (l1 ++ bad :: l2) = regularLoop1 (l1 ++ l2) ∧
    regularLoop2 (l1 ++ bad :: l2) = regularLoop2 (l1 ++ l2) ∧
    (regularLoop1 demo3).2.countP isLRc = 2 ∧
    (regularLoop2 demo3).2.countP isLRc = 2 := by
  have hstep1 : step1 (regularLoop1 l1) bad = regularLoop1 l1 := by
    rw [step1, hb]
  have hstep2 : step2 (regularLoop2 l1) bad = regularLoop2 l1 := by
    rw [step2, hb]
  refine ⟨?_, ?_, by decide, by decide⟩
  · rw [regularLoop1, regularLoop1, List.foldl_append, List.foldl_append,
      List.foldl_cons]
    rw [show List.foldl step1 (false, []) l1 = regularLoop1 l1 from rfl, hstep1]
  · rw [regularLoop2, regularLoop2, List.foldl_append, List.foldl_append,
      List.foldl_cons]
    rw [show List.foldl step2 (false, []) l1 = regularLoop2 l1 from rfl, hstep2]

/-- C7, witness: the theorem applied to a concrete split with a
nameless middle item. -/
theorem item_fault_isolation_witness :
    regularLoop1 ([(⟨some "Brot", "2,50", none⟩ : Item)] ++
        (⟨none, "1,00", none⟩ : Item) :: []) =
      regularLoop1 ([(⟨some "Brot", "2,50", none⟩ : Item)] ++ []) :=
  (item_fault_isolation [⟨some "Brot", "2,50", none⟩] []
    ⟨none, "1,00", none⟩ rfl).1

/-! ## Claim C8 -/

/-- C8: a QR failure aborts neither variant — the rendered sequence of
an order with a non-empty total still ends with `Cut`, still contains
the bold total line and all company-identity lines, and contains no
`printQR` command. -/
theorem qr_failure_resilience (o : Order) (t : String)
    (ht : o.total = some t) (hne : (t == "") = false) :
    (renderReceipt1 o false).getLast? = some Cmd.cut ∧
    Cmd.leftRight "GESAMTBETRAG:" t ∈ renderReceipt1 o false ∧
    Cmd.println "BankLy LLC German Branch" ∈ renderReceipt1 o false ∧
    Cmd.println "Mainzer Landstraße 55" ∈ renderReceipt1 o false ∧
    Cmd.println "60325 Frankfurt, Germany" ∈ renderReceipt1 o false ∧
    (∀ c ∈ renderReceipt1 o false, isQR c = false) ∧
    (renderReceipt2 o false).getLast? = some Cmd.cut ∧
    Cmd.leftRight "GESAMT:" t ∈ renderReceipt2 o false ∧
    Cmd.println "BankLy LLC German Branch" ∈ renderReceipt2 o false ∧
    (∀ c ∈ renderReceipt2 o false, isQR c = false) := by
  have htr : truthy o.total = true := by rw [ht]; simp [truthy, hne]
  have hget : o.total.getD "" = t := by rw [ht]; rfl
  have hm1 : Cmd.leftRight "GESAMTBETRAG:" t ∈ totBlock1 o := by
    rw [totBlock1, if_pos htr, hget]
    simp
  have hm2 : Cmd.leftRight "GESAMT:" t ∈ totBlock2 o := by
    rw [totBlock2, if_pos htr, hget]
    simp
  have ht1 : Cmd.leftRight "GESAMTBETRAG:" t ∈ tail1 o false := by
    simp only [tail1, List.mem_append]
    exact Or.inl (Or.inl (Or.inl (Or.inl hm1)))
  have ht2 : Cmd.leftRight "GESAMT:" t ∈ tail2 o false := by
    simp only [tail2, List.mem_append]
    exact Or.inl (Or.inl (Or.inl (Or.inl hm2)))
  have hb1 : ∀ s : String, Cmd.println s ∈
      [Cmd.newLine, Cmd.alignCenter, Cmd.println "Enthaltene MwSt. 19%",
       Cmd.newLine, Cmd.println "BankLy LLC German Branch",
       Cmd.println "Mainzer Landstraße 55",
       Cmd.println "60325 Frankfurt, Germany"] →
      Cmd.println s ∈ tail1 o false := by
    intro s hs
    simp only [tail1, List.mem_append]
    exact Or.inl (Or.inl (Or.inl (Or.inr hs)))
  have hb2 : ∀ s : String, Cmd.println s ∈
      [Cmd.newLine, Cmd.alignCenter, Cmd.textSize 0 0,
       Cmd.println "Enthaltene MwSt. 19%", Cmd.textNormal, Cmd.newLine,
       Cmd.println "BankLy LLC German Branch", Cmd.println "Mainzer Landstraße 55",
       Cmd.println "60325 Frankfurt, Germany", Cmd.newLine] →
      Cmd.println s ∈ tail2 o false := by
    intro s hs
    simp only [tail2, List.mem_append]
    exact Or.inl (Or.inl (Or.inl (Or.inr hs)))
  have hr1 : ∀ c : Cmd, c ∈ tail1 o false → c ∈ renderReceipt1 o false := by
    intro c hc
    simp only [renderReceipt1, List.mem_append]
    exact Or.inr hc
  have hr2 : ∀ c : Cmd, c ∈ tail2 o false → c ∈ renderReceipt2 o false := by
    intro c hc
    simp only [renderReceipt2, List.mem_append]
    exact Or.inr hc
  refine ⟨render1_ends_cut o false, hr1 _ ht1, hr1 _ (hb1 _ (by simp)),
    hr1 _ (hb1 _ (by simp)), hr1 _ (hb1 _ (by simp)), render1_noqr o,
    render2_ends_cut o false, hr2 _ ht2, hr2 _ (hb2 _ (by simp)),
    render2_noqr o⟩

/-- C8, witness: the theorem applied to a concrete order with total
`"5,00"`. -/
theorem qr_failure_resilience_witness :
    (renderReceipt1 oQrW false).getLast? = some Cmd.cut ∧
    Cmd.leftRight "GESAMT:" "5,00" ∈ renderReceipt2 oQrW false := by
  have h := qr_failure_resilience oQrW "5,00" rfl (by decide)
  exact ⟨h.1, h.2.2.2.2.2.2.2.1⟩

/-! ## Claim C9 -/

/-- C9, counterexample: after a successful `execute` the part_000
receipt handler performs no buffer reset, and on an execute failure the
`src/index.js` receipt handler reports the failure without a buffer
reset — refuting "a clear is requested afterwards on both outcomes". -/
theorem buffer_reset_cex :
    POp.clear ∉ postExec (receiptHandler2 o0 true true).2 ∧
    POp.clear ∉ postExec (receiptHandler1 o0 true false).2 := by decide

/-- C9, amended: for every order, the `src/index.js` receipt handler
requests a buffer reset after a successful execute but performs no
printer operation after a failed execute before reporting, while the
part_000 handler performs no printer operation after a successful
execute and requests a buffer reset after a failed execute before
reporting. -/
theorem buffer_reset_amended (o : Order) (qrOk : Bool) :
    POp.clear ∈ postExec (receiptHandler1 o qrOk true).2 ∧
    postExec (receiptHandler1 o qrOk false).2 = [] ∧
    postExec (receiptHandler2 o qrOk true).2 = [] ∧
    POp.clear ∈ postExec (receiptHandler2 o qrOk false).2 := by
  have hno1 : ∀ x ∈ POp.clear :: (renderReceipt1 o qrOk).map POp.append,
      x ≠ POp.execute := by
    intro x hx
    rcases List.mem_cons.mp hx with rfl | hx
    · simp
    · rcases List.mem_map.mp hx with ⟨c, _, rfl⟩
      simp
  have hno2 : ∀ x ∈ POp.clear :: (renderReceipt2 o qrOk).map POp.append,
      x ≠ POp.execute := by
    intro x hx
    rcases List.mem_cons.mp hx with rfl | hx
    · simp
    · rcases List.mem_map.mp hx with ⟨c, _, rfl⟩
      simp
  have e1t : (receiptHandler1 o qrOk true).2 =
      (POp.clear :: (renderReceipt1 o qrOk).map POp.append) ++
        POp.execute :: [POp.clear] := by
    simp [receiptHandler1]
  have e1f : (receiptHandler1 o qrOk false).2 =
      (POp.clear :: (renderReceipt1 o qrOk).map POp.append) ++
        POp.execute :: [] := by
    simp [receiptHandler1]
  have e2t : (receiptHandler2 o qrOk true).2 =
      (POp.clear :: (renderReceipt2 o qrOk).map POp.append) ++
        POp.execute :: [] := by
    simp [receiptHandler2]
  have e2f : (receiptHandler2 o qrOk false).2 =
      (POp.clear :: (renderReceipt2 o qrOk).map POp.append) ++
        POp.execute :: [POp.clear] := by
    simp [receiptHandler2]
  refine ⟨?_, ?_, ?_, ?_⟩
  · rw [e1t, postExec_skip _ _ hno1]
    simp
  · rw [e1f, postExec_skip _ _ hno1]
  · rw [e2t, postExec_skip _ _ hno2]
  · rw [e2f, postExec_skip _ _ hno2]
    simp

/-! ## Claim C10 -/

/-- C10: every invalid standalone-barcode request — missing or
non-string id, empty id, or an id cleaning to a digit count other than
12 or 13 — is rejected with a client error while the printer-operation
trace stays empty: nothing is appended, `execute` is never invoked, and
the printer buffer is untouched. -/
theorem barcode_validation_atomic (i : Option String) (e : Bool)
    (h : i = none ∨ ∃ s, i = some s ∧
      ((s == "") = true ∨
        ((stripNonDigits s).length ≠ 12 ∧ (stripNonDigits s).length ≠ 13))) :
    isClientError (barcodeHandler i e).1 = true ∧ (barcodeHandler i e).2 = [] := by
  rcases h with rfl | ⟨s, rfl, hs⟩
  · exact ⟨rfl, rfl⟩
  · rcases hs with h0 | ⟨h12, h13⟩
    · simp [barcodeHandler, h0, isClientError]
    · by_cases h0 : (s == "") = true
      · simp [barcodeHandler, h0, isClientError]
      · have h0f : (s == "") = false := by simpa using h0
        have hb13 : ((stripNonDigits s).length == 13) = false := by
          simp only [beq_eq_false_iff_ne]
          exact h13
        have hb12 : ((stripNonDigits s).length != 12) = true := by
          simp only [bne_iff_ne]
          exact h12
        simp [barcodeHandler, h0f, hb13, hb12, isClientError]

/-- C10, witness: the theorem applied to the all-letter id `"abc"`. -/
theorem barcode_validation_atomic_witness :
    isClientError (barcodeHandler (some "abc") true).1 = true ∧
    (barcodeHandler (some "abc") true).2 = [] :=
  barcode_validation_atomic (some "abc") true
    (Or.inr ⟨"abc", rfl, Or.inr (by decide)⟩)
